import Mathlib

/-!
Verification of the scoring/forecasting core of the Smart Restate AI agent.

Each Python function named below is shallowly embedded as a Lean definition
over exact arithmetic (`ℚ` where the Python code computes with decimal
constants and integer data, `ℝ` with `Real.rpow` where the Python code uses
fractional float exponents).  Machine floats are modelled by exact rationals
and reals; `round(x, k)` is modelled as nearest-integer rounding of `x·10^k`
divided by `10^k` (Python uses banker's rounding at exact ties; every
property proved below only uses `|round(x,k) − x| ≤ 10^(-k)/2`, which both
conventions satisfy).
-/

set_option maxHeartbeats 1000000

/-! ## Trend analyzer (`services/ml_models.py`, `analyze_trend`) -/

/-- Sum of the index positions `0, 1, …, n-1` used as the regressor values
of the least-squares fit (`np.arange(n_points)` in the source). -/
def sumIdx (n : ℕ) : ℚ :=
  ((List.range n).map fun i => (i : ℚ)).sum

/-- Sum of the squares of the index positions `0, 1, …, n-1`. -/
def sumIdxSq (n : ℕ) : ℚ :=
  ((List.range n).map fun i => (i : ℚ) ^ 2).sum

/-- Denominator `n·Σx² − (Σx)²` of the closed-form ordinary-least-squares
slope for regressor values `0 … n-1`. -/
def olsDenom (n : ℕ) : ℚ :=
  (n : ℚ) * sumIdxSq n - sumIdx n ^ 2

/-- Sum of `i * y_i` over the response list, pairing each value with its
index position. -/
def dotIdx (ys : List ℚ) : ℚ :=
  (ys.enum.map fun p => (p.1 : ℚ) * p.2).sum

/-- Ordinary-least-squares slope of `ys` against the index positions
`0 … n-1` (`n = ys.length`): the coefficient produced by
`LinearRegression().fit(X, y)` in the source, in closed normal-equation
form `(n·Σxy − Σx·Σy) / (n·Σx² − (Σx)²)`. -/
def olsSlope (ys : List ℚ) : ℚ :=
  let n := ys.length
  ((n : ℚ) * dotIdx ys - sumIdx n * ys.sum) / olsDenom n

/-- Last `k` elements of a list: `series.tail(k).values` in the source
(pandas `tail`, not the list-tail). -/
def lastN (k : ℕ) (l : List ℚ) : List ℚ :=
  l.drop (l.length - k)

/-- Embedding of `analyze_trend(series)`: fewer than two points gives
`"neutral"`; otherwise the OLS slope over the last `min(6, len)` points is
banded at `±0.1`.  The Python `except` branch (returning `"neutral"`) is
unreachable for `len ≥ 2` because the fit is non-degenerate — see
`olsDenom` positivity in the C1 theorem — so the embedding is total. -/
def analyze_trend (series : List ℚ) : String :=
  if series.length < 2 then "neutral"
  else
    let n_points := min 6 series.length
    let y := lastN n_points series
    let slope := olsSlope y
    if slope > 0.1 then "increasing"
    else if slope < -0.1 then "decreasing"
    else "stable"

/-- Modelled from the spec: the §4.2 slope banding written exactly as the
spec states it (`slope > 0.1 → increasing; slope < −0.1 → decreasing;
else → stable`), to be compared with `analyze_trend`. -/
def classifySlope (slope : ℚ) : String :=
  if slope > 0.1 then "increasing"
  else if slope < -0.1 then "decreasing"
  else "stable"

/-! ## Market direction forecaster (`services/ml_models.py`,
`forecast_market_direction`) -/

/-- Interest-rate contribution to the market score: decreasing `+2`,
neutral `+1`, anything else (increasing or stable) `-1`, exactly as the
`if/elif/else` chain in the source. -/
def interestContribution (trend : String) : ℤ :=
  if trend == "decreasing" then 2
  else if trend == "neutral" then 1
  else -1

/-- Inflation contribution: increasing with mean `> 4.0` gives `-1`;
stable, or increasing with mean `≤ 4.0`, gives `+1`; otherwise `0`. -/
def inflationContribution (trend : String) (mean : ℚ) : ℤ :=
  if trend == "increasing" ∧ 4 < mean then -1
  else if trend == "stable" ∨ (trend == "increasing" ∧ mean ≤ 4) then 1
  else 0

/-- GDP contribution: increasing `+2`, neutral `+0`, anything else `-2`. -/
def gdpContribution (trend : String) : ℤ :=
  if trend == "increasing" then 2
  else if trend == "neutral" then 0
  else -2

/-- Total market score: the sum of the three contributions accumulated in
`market_score` by the source. -/
def marketScore (interestTrend inflationTrend : String) (inflationMean : ℚ)
    (gdpTrend : String) : ℤ :=
  interestContribution interestTrend
    + inflationContribution inflationTrend inflationMean
    + gdpContribution gdpTrend

/-- Market direction label from the integer market score, mirroring the
reassignment chain in the source. -/
def marketDirection (score : ℤ) : String :=
  if 3 ≤ score then "strong growth"
  else if 1 ≤ score then "moderate growth"
  else if score ≤ -3 then "sharp decline"
  else if score ≤ -1 then "moderate decline"
  else "neutral"

/-- Python `round(q, 2)` modelled over `ℚ`. -/
def round2 (q : ℚ) : ℚ :=
  ((round (q * 100) : ℤ) : ℚ) / 100

/-- Python `round(q, 1)` modelled over `ℚ`. -/
def round1 (q : ℚ) : ℚ :=
  ((round (q * 10) : ℤ) : ℚ) / 10

/-- Raw confidence `min(0.6 + abs(market_score) * 0.05, 0.95)` computed by
the source before serialization. -/
def confidenceValue (score : ℤ) : ℚ :=
  min (0.6 + ((|score| : ℤ) : ℚ) * 0.05) 0.95

/-- Confidence as reported in the response payload: the source serializes
`round(confidence, 2)`. -/
def confidenceReported (score : ℤ) : ℚ :=
  round2 (confidenceValue score)

/-! ## Location intelligence scorer (`routes/location_intelligence.py`) -/

/-- Embedding of `calculate_category_score(places, category)`.  A place
enters the computation only through its `distance` value (with the source
defaulting a missing distance to 1000), so places are modelled by their
distances. -/
def calculate_category_score (distances : List ℚ) (category : String) : ℚ :=
  if distances.isEmpty then 0
  else
    let n := distances.length
    let base_score : ℚ :=
      if category == "school" then min ((n : ℚ) * 15) 85
      else if category == "hospital" then min ((n : ℚ) * 20) 90
      else if category == "transport" then min ((n : ℚ) * 10) 80
      else min ((n : ℚ) * 10) 70
    let avg_distance := distances.sum / (n : ℚ)
    let distance_factor := max 0 (1 - avg_distance / 2000)
    let score := base_score * (0.7 + 0.3 * distance_factor)
    min score 100

/-- Embedding of `calculate_green_score(parks, green_areas)`, with both
input lists modelled by their distance values. -/
def calculate_green_score (parkDistances greenAreaDistances : List ℚ) : ℚ :=
  let num_green_spaces := parkDistances.length + greenAreaDistances.length
  let base_score := min ((num_green_spaces : ℚ) * 12) 85
  let distances := parkDistances ++ greenAreaDistances
  let score :=
    if distances.isEmpty then 0
    else
      let avg_distance := distances.sum / (distances.length : ℚ)
      let distance_factor := max 0 (1 - avg_distance / 2000)
      base_score * (0.7 + 0.3 * distance_factor)
  min score 100

/-- Embedding of `calculate_development_score(location_details)`: the
details payload enters only through `walkability_score` (0–100 per the
collaborator, defaulted to 0) and the number of `amenities`. -/
def calculate_development_score (walkability : ℚ) (numAmenities : ℕ) : ℚ :=
  let base_score := min walkability 90
  let amenity_factor := min ((numAmenities : ℚ) / 20) 1
  let score := base_score * 0.7 + amenity_factor * 30
  min score 100

/-- The weighted composite used for `total_score` in both scoring
endpoints (`get_location_score_endpoint` and `compare_locations`). -/
def total_score_formula (schools hospitals transport crime green development : ℚ) : ℚ :=
  schools * 0.2 + hospitals * 0.15 + transport * 0.2
    + crime * 0.2 + green * 0.1 + development * 0.15

/-- The `LocationScore` model (`MapDataFetcher/models.py`), numeric fields
only. -/
structure LocationScore where
  location : String
  total_score : ℚ
  schools_score : ℚ
  hospitals_score : ℚ
  transport_score : ℚ
  crime_score : ℚ
  green_zones_score : ℚ
  development_score : ℚ

/-- Construction of a `LocationScore` as performed by both scoring
endpoints: every sub-score is serialized with `round(·, 1)` and the total
is `round(total_score, 1)` of the weighted sum of the unrounded
sub-scores. -/
def mkLocationScore (loc : String)
    (schools hospitals transport crime green development : ℚ) : LocationScore where
  location := loc
  total_score := round1 (total_score_formula schools hospitals transport crime green development)
  schools_score := round1 schools
  hospitals_score := round1 hospitals
  transport_score := round1 transport
  crime_score := round1 crime
  green_zones_score := round1 green
  development_score := round1 development

/-! ## City lookup tables (`services/ml_models.py`) -/

/-- Selector for the inner `{'residential': r, 'commercial': c, 'land': l}`
dictionaries, with the `.get(property_type, 300)` default of the source. -/
def priceFor (res com land : ℕ) (property_type : String) : ℕ :=
  if property_type == "residential" then res
  else if property_type == "commercial" then com
  else if property_type == "land" then land
  else 300

/-- Characters of a string up to (excluding) the first comma:
`location.split(',')[0]`. -/
def beforeComma : List Char → List Char
  | [] => []
  | c :: cs => if c == ',' then [] else c :: beforeComma cs

/-- Drop leading whitespace characters (one side of Python `strip()`). -/
def dropWhite : List Char → List Char
  | [] => []
  | c :: cs => if c.isWhitespace then dropWhite cs else c :: cs

/-- Python `strip()` over a character list: whitespace removed from both
ends. -/
def stripChars (cs : List Char) : List Char :=
  (dropWhite (dropWhite cs.reverse).reverse)

/-- `location.split(',')[0].strip()`: the city key extracted from a
`"City, State"` string. -/
def cityOf (location : String) : String :=
  ⟨stripChars (beforeComma location.toList)⟩

/-- Embedding of `estimate_base_price(location, property_type)` with the
full base-price table of the source. -/
def estimate_base_price (location property_type : String) : ℕ :=
  let city := cityOf location
  if city == "New York" then priceFor 750 950 450 property_type
  else if city == "Los Angeles" then priceFor 650 850 400 property_type
  else if city == "Chicago" then priceFor 350 500 200 property_type
  else if city == "Houston" then priceFor 200 350 100 property_type
  else if city == "Phoenix" then priceFor 180 300 90 property_type
  else if city == "Philadelphia" then priceFor 225 375 125 property_type
  else if city == "San Antonio" then priceFor 160 280 80 property_type
  else if city == "San Diego" then priceFor 570 780 350 property_type
  else if city == "Dallas" then priceFor 210 360 110 property_type
  else if city == "San Francisco" then priceFor 1050 1200 600 property_type
  else
    -- default base prices if location not found
    if property_type == "residential" then 300
    else if property_type == "commercial" then 400
    else if property_type == "land" then 150
    else 300

/-- Selector for the inner growth-rate dictionaries with the
`.get(property_type, 0.03)` default of the source. -/
def rateFor (res com land : ℚ) (property_type : String) : ℚ :=
  if property_type == "residential" then res
  else if property_type == "commercial" then com
  else if property_type == "land" then land
  else 0.03

/-- Embedding of `estimate_growth_rate(location, property_type)` with the
full growth-rate table of the source. -/
def estimate_growth_rate (location property_type : String) : ℚ :=
  let city := cityOf location
  if city == "New York" then rateFor 0.04 0.035 0.045 property_type
  else if city == "Los Angeles" then rateFor 0.045 0.04 0.05 property_type
  else if city == "Chicago" then rateFor 0.025 0.02 0.03 property_type
  else if city == "Houston" then rateFor 0.035 0.03 0.04 property_type
  else if city == "Phoenix" then rateFor 0.05 0.045 0.055 property_type
  else if city == "Philadelphia" then rateFor 0.025 0.02 0.03 property_type
  else if city == "San Antonio" then rateFor 0.04 0.035 0.045 property_type
  else if city == "San Diego" then rateFor 0.045 0.04 0.05 property_type
  else if city == "Dallas" then rateFor 0.04 0.035 0.045 property_type
  else if city == "San Francisco" then rateFor 0.035 0.03 0.04 property_type
  else
    -- default growth rates if location not found
    if property_type == "residential" then 0.03
    else if property_type == "commercial" then 0.025
    else if property_type == "land" then 0.035
    else 0.03

/-- Price-to-rent ratio used by `estimate_monthly_rent`: the city table has
only `residential`/`commercial` entries; any other combination falls back
to the default ratio dictionary `{residential: 18, commercial: 11,
land: 40}` with final default 18. -/
def rentRatio (location property_type : String) : ℚ :=
  let city := cityOf location
  let known := city == "New York" ∨ city == "Los Angeles" ∨ city == "Chicago"
    ∨ city == "Houston" ∨ city == "Phoenix" ∨ city == "Philadelphia"
    ∨ city == "San Antonio" ∨ city == "San Diego" ∨ city == "Dallas"
    ∨ city == "San Francisco"
  if known ∧ property_type == "residential" then
    if city == "New York" then 20
    else if city == "Los Angeles" then 22
    else if city == "Chicago" then 16
    else if city == "Houston" then 14
    else if city == "Phoenix" then 15
    else if city == "Philadelphia" then 15
    else if city == "San Antonio" then 14
    else if city == "San Diego" then 20
    else if city == "Dallas" then 15
    else 25
  else if known ∧ property_type == "commercial" then
    if city == "New York" then 12
    else if city == "Los Angeles" then 13
    else if city == "Chicago" then 10
    else if city == "Houston" then 9
    else if city == "Phoenix" then 10
    else if city == "Philadelphia" then 10
    else if city == "San Antonio" then 9
    else if city == "San Diego" then 12
    else if city == "Dallas" then 10
    else 14
  else
    if property_type == "residential" then 18
    else if property_type == "commercial" then 11
    else if property_type == "land" then 40
    else 18

/-- Embedding of `estimate_monthly_rent(location, property_type,
property_value)`. -/
def estimate_monthly_rent (location property_type : String) (property_value : ℚ) : ℚ :=
  property_value / (rentRatio location property_type * 12)

/-! ## Construction window scoring (`routes/construction_planning.py`,
`identify_construction_windows`) -/

/-- Temperature adjustment factor on a monthly window. -/
def tempFactor (avg_temp : ℚ) : ℚ :=
  if avg_temp > 90 then 0.8
  else if avg_temp < 40 then 0.7
  else 1

/-- Precipitation adjustment factor on a monthly window
(`precipitation_days` is an integer count in the source). -/
def precipFactor (precipitation_days : ℕ) : ℚ :=
  if precipitation_days > 15 then 0.7
  else if precipitation_days > 10 then 0.85
  else 1

/-- Unrounded final score of a monthly window:
`favorable_days * temp_factor * precip_factor`. -/
def windowFinalScore (favorable_days : ℕ) (avg_temp : ℚ) (precipitation_days : ℕ) : ℚ :=
  (favorable_days : ℚ) * tempFactor avg_temp * precipFactor precipitation_days

/-- Rating band of a window, computed from the unrounded final score. -/
def windowRating (final_score : ℚ) : String :=
  if final_score > 22 then "Excellent"
  else if final_score > 18 then "Good"
  else if final_score > 14 then "Average"
  else "Poor"

/-- The `(score, rating)` pair emitted per month by
`identify_construction_windows`: the serialized score is `round(·, 1)` of
the final score while the rating is banded on the unrounded value. -/
def scoreConstructionMonth (favorable_days : ℕ) (avg_temp : ℚ)
    (precipitation_days : ℕ) : ℚ × String :=
  (round1 (windowFinalScore favorable_days avg_temp precipitation_days),
   windowRating (windowFinalScore favorable_days avg_temp precipitation_days))

/-! ## Standalone ROI calculator (`services/ml_models.py`,
`calculate_investment_roi`) — exact rational arithmetic. -/

/-- Result of the `flip` branch of `calculate_investment_roi`.  The
`return_drivers`/`strategy` presentation fields of the returned dict are
omitted; `total_return` is the computed `profit`. -/
structure FlipStrategyResult where
  roi_percentage : ℚ
  breakeven_months : ℚ
  monthly_cash_flow : ℚ
  total_return : ℚ
  future_value : ℚ
  total_costs : ℚ

/-- Result of the `rent` branch of `calculate_investment_roi`.
`breakeven_months = none` models the `float('inf')` sentinel. -/
structure RentStrategyResult where
  roi_percentage : ℚ
  annual_roi : ℚ
  breakeven_months : Option ℚ
  monthly_cash_flow : ℚ
  annual_cash_flow : ℚ
  total_return : ℚ
  future_value : ℚ
  total_rental_income : ℚ
  cap_rate : ℚ
  cash_on_cash_return : ℚ

/-- Result of the `hold` branch of `calculate_investment_roi`.
`breakeven_months = none` models the `float('inf')` sentinel. -/
structure HoldStrategyResult where
  roi_percentage : ℚ
  annual_roi : ℚ
  breakeven_months : Option ℚ
  monthly_cash_flow : ℚ
  total_return : ℚ
  future_value : ℚ
  total_holding_costs : ℚ

/-- The `flip` branch of `calculate_investment_roi`.  This branch contains
no random jitter: every quantity is a deterministic function of the
arguments. -/
def flip_strategy_roi (location property_type : String)
    (purchase_price additional_investment : ℚ) (timeframe : ℤ) : FlipStrategyResult :=
  let total_investment := purchase_price + additional_investment
  let appreciation_rate := estimate_growth_rate location property_type
  let future_value := purchase_price * (1 + appreciation_rate) ^ timeframe
  let holding_period := min 1 timeframe
  let transaction_costs := purchase_price * 0.05 + future_value * 0.06
  let monthly_holding_cost := purchase_price * 0.01 / 12
  let holding_costs := monthly_holding_cost * ((holding_period * 12 : ℤ) : ℚ)
  let profit := future_value - purchase_price - additional_investment
    - transaction_costs - holding_costs
  let roi_percentage := profit / total_investment * 100
  let breakeven_months : ℚ :=
    if profit ≤ 0 then ((timeframe * 12 * 2 : ℤ) : ℚ) else 0
  { roi_percentage := roi_percentage
    breakeven_months := breakeven_months
    monthly_cash_flow := 0
    total_return := profit
    future_value := future_value
    total_costs := transaction_costs + holding_costs + additional_investment }

/-- The `rent` branch of `calculate_investment_roi`. -/
def rent_strategy_roi (location property_type : String)
    (purchase_price additional_investment : ℚ) (timeframe : ℤ)
    (expected_rent expected_expenses : ℚ) : RentStrategyResult :=
  let total_investment := purchase_price + additional_investment
  let appreciation_rate := estimate_growth_rate location property_type
  let future_value := purchase_price * (1 + appreciation_rate) ^ timeframe
  let appreciation_gain := future_value - purchase_price
  let rent := if expected_rent ≤ 0
    then estimate_monthly_rent location property_type purchase_price
    else expected_rent
  let expenses := if expected_expenses ≤ 0 then rent * 0.4 else expected_expenses
  let monthly_cash_flow := rent - expenses
  let annual_cash_flow := monthly_cash_flow * 12
  let total_rental_income := annual_cash_flow * (timeframe : ℚ)
  let total_return := total_rental_income + appreciation_gain
  let roi_percentage := total_return / total_investment * 100
  let annual_roi := roi_percentage / (timeframe : ℚ)
  let breakeven_months : Option ℚ :=
    if monthly_cash_flow ≤ 0 then none
    else some (total_investment / monthly_cash_flow)
  { roi_percentage := roi_percentage
    annual_roi := annual_roi
    breakeven_months := breakeven_months
    monthly_cash_flow := monthly_cash_flow
    annual_cash_flow := annual_cash_flow
    total_return := total_return
    future_value := future_value
    total_rental_income := total_rental_income
    cap_rate := annual_cash_flow / purchase_price * 100
    cash_on_cash_return := annual_cash_flow / total_investment * 100 }

/-- The `hold` branch of `calculate_investment_roi`. -/
def hold_strategy_roi (location property_type : String)
    (purchase_price additional_investment : ℚ) (timeframe : ℤ) : HoldStrategyResult :=
  let total_investment := purchase_price + additional_investment
  let appreciation_rate := estimate_growth_rate location property_type
  let future_value := purchase_price * (1 + appreciation_rate) ^ timeframe
  let appreciation_gain := future_value - purchase_price
  let annual_holding_costs := purchase_price * 0.015
  let total_holding_costs := annual_holding_costs * (timeframe : ℚ)
  let profit := future_value - purchase_price - total_holding_costs
  let roi_percentage := profit / total_investment * 100
  let annual_roi := roi_percentage / (timeframe : ℚ)
  let value_increase_per_year := appreciation_gain / (timeframe : ℚ)
  let breakeven_months : Option ℚ :=
    if value_increase_per_year ≤ annual_holding_costs then none
    else some (total_investment / (value_increase_per_year - annual_holding_costs) * 12)
  { roi_percentage := roi_percentage
    annual_roi := annual_roi
    breakeven_months := breakeven_months
    monthly_cash_flow := -annual_holding_costs / 12
    total_return := profit
    future_value := future_value
    total_holding_costs := total_holding_costs }

/-- Tagged union of the three strategy payloads returned by
`calculate_investment_roi`. -/
inductive InvestmentRoiResult where
  | flip : FlipStrategyResult → InvestmentRoiResult
  | rent : RentStrategyResult → InvestmentRoiResult
  | hold : HoldStrategyResult → InvestmentRoiResult

/-- Embedding of `calculate_investment_roi`: dispatch on the investment
goal, with every goal other than `flip`/`rent` treated as `hold`. -/
def calculate_investment_roi (location property_type : String)
    (purchase_price : ℚ) (investment_goal : String) (timeframe : ℤ)
    (additional_investment expected_rent expected_expenses : ℚ) : InvestmentRoiResult :=
  if investment_goal == "flip" then
    .flip (flip_strategy_roi location property_type purchase_price
      additional_investment timeframe)
  else if investment_goal == "rent" then
    .rent (rent_strategy_roi location property_type purchase_price
      additional_investment timeframe expected_rent expected_expenses)
  else
    .hold (hold_strategy_roi location property_type purchase_price
      additional_investment timeframe)

/-! ## Timing-engine ROI models (`routes/investment_timing.py`) — real
arithmetic with `Real.rpow` for the fractional float exponents, and the
`random.uniform(0.95, 1.05)` market jitter passed as an explicit
parameter. -/

/-- The hot-market list shared by the timing-engine ROI models. -/
def hot_markets : List String :=
  ["New York", "San Francisco", "Los Angeles", "Seattle", "Austin", "Miami"]

/-- Does `pat` occur as a leading segment of `s`? -/
def charsStartWith : List Char → List Char → Bool
  | [], _ => true
  | _ :: _, [] => false
  | a :: as, b :: bs => a == b && charsStartWith as bs

/-- Does `pat` occur as a contiguous segment of the second list?  Models
the Python substring test `pat in s`. -/
def charsContain (pat : List Char) : List Char → Bool
  | [] => charsStartWith pat []
  | b :: bs => charsStartWith pat (b :: bs) || charsContain pat bs

/-- `any(market in location for market in hot_markets)`. -/
def isHotMarket (location : String) : Bool :=
  hot_markets.any fun market => charsContain market.toList location.toList

/-- Python `round(x, 2)` modelled over `ℝ`. -/
noncomputable def round2R (x : ℝ) : ℝ :=
  ((round (x * 100) : ℤ) : ℝ) / 100

/-- Result of `calculate_flip_roi` (unrounded internals; the route
serializes `round(·, 2)` of the monetary and percentage fields). -/
structure FlipRoiResult where
  initial_investment : ℝ
  holding_period_months : ℤ
  projected_sale_price : ℝ
  total_costs : ℝ
  net_profit : ℝ
  roi_percent : ℝ
  annualized_roi_percent : ℝ

/-- Embedding of `calculate_flip_roi(location, property_type,
purchase_price, renovation_cost, timeframe)`.  `jitter` is the
`random.uniform(0.95, 1.05)` factor applied to the projected sale price.
The source's unused local `renovation_impact` is dropped. -/
noncomputable def calculate_flip_roi (location property_type : String)
    (purchase_price renovation_cost : ℝ) (timeframe : ℤ) (jitter : ℝ) : FlipRoiResult :=
  let initial_investment := purchase_price + renovation_cost
  let monthly_holding_cost := purchase_price * 0.015 / 12
  let holding_period_months := min (timeframe * 12) 12
  let total_holding_costs := monthly_holding_cost * (holding_period_months : ℝ)
  let selling_cost_percent : ℝ := 0.075
  let market_appreciation : ℝ := 0.03
  let market_adjustment : ℝ := if isHotMarket location then 1.2 else 1.0
  let renovation_value_multiplier : ℝ := 1.5
  let market_appreciation_factor :=
    (1 + market_appreciation) ^ ((holding_period_months : ℝ) / 12)
  let projected_sale_price :=
    (purchase_price * market_appreciation_factor
      + renovation_cost * renovation_value_multiplier) * market_adjustment * jitter
  let selling_costs := projected_sale_price * selling_cost_percent
  let net_profit := projected_sale_price - initial_investment
    - total_holding_costs - selling_costs
  let roi_percent := net_profit / initial_investment * 100
  let annualized_roi :=
    ((1 + roi_percent / 100) ^ ((12 : ℝ) / (holding_period_months : ℝ)) - 1) * 100
  { initial_investment := initial_investment
    holding_period_months := holding_period_months
    projected_sale_price := projected_sale_price
    total_costs := total_holding_costs + selling_costs
    net_profit := net_profit
    roi_percent := roi_percent
    annualized_roi_percent := annualized_roi }

/-- Result of `calculate_rental_roi` (unrounded internals). -/
structure RentalRoiResult where
  initial_investment : ℝ
  monthly_cash_flow : ℝ
  annual_cash_flow : ℝ
  projected_future_value : ℝ
  total_rental_income : ℝ
  equity_gain : ℝ
  total_return : ℝ
  cash_on_cash_roi_percent : ℝ
  total_roi_percent : ℝ
  annualized_roi_percent : ℝ

/-- Embedding of `calculate_rental_roi`, with the future-value jitter as
an explicit parameter. -/
noncomputable def calculate_rental_roi (location property_type : String)
    (purchase_price renovation_cost monthly_rent monthly_expenses : ℝ)
    (timeframe : ℤ) (jitter : ℝ) : RentalRoiResult :=
  let initial_investment := purchase_price + renovation_cost
  let monthly_cash_flow := monthly_rent - monthly_expenses
  let annual_cash_flow := monthly_cash_flow * 12
  let rate0 : ℝ := 0.03
  let rate1 := if isHotMarket location then rate0 * 1.5 else rate0
  let annual_appreciation_rate :=
    if property_type == "commercial" then rate1 * 0.9 else rate1
  let future_value := purchase_price * (1 + annual_appreciation_rate) ^ timeframe * jitter
  let selling_costs := future_value * 0.075
  let total_rental_income := annual_cash_flow * (timeframe : ℝ)
  let equity_gain := future_value - purchase_price - selling_costs
  let total_return := total_rental_income + equity_gain
  let cash_on_cash_roi := annual_cash_flow / initial_investment * 100
  let total_roi := total_return / initial_investment * 100
  let annualized_roi :=
    ((1 + total_roi / 100) ^ ((1 : ℝ) / (timeframe : ℝ)) - 1) * 100
  { initial_investment := initial_investment
    monthly_cash_flow := monthly_cash_flow
    annual_cash_flow := annual_cash_flow
    projected_future_value := future_value
    total_rental_income := total_rental_income
    equity_gain := equity_gain
    total_return := total_return
    cash_on_cash_roi_percent := cash_on_cash_roi
    total_roi_percent := total_roi
    annualized_roi_percent := annualized_roi }

/-- Result of `calculate_hold_roi` (unrounded internals). -/
structure HoldRoiResult where
  initial_investment : ℝ
  projected_future_value : ℝ
  total_holding_costs : ℝ
  selling_costs : ℝ
  net_profit : ℝ
  roi_percent : ℝ
  annualized_roi_percent : ℝ

/-- Embedding of `calculate_hold_roi`, with the future-value jitter as an
explicit parameter. -/
noncomputable def calculate_hold_roi (location property_type : String)
    (purchase_price renovation_cost : ℝ) (timeframe : ℤ) (jitter : ℝ) : HoldRoiResult :=
  let initial_investment := purchase_price + renovation_cost
  let rate0 : ℝ := 0.03
  let rate1 := if isHotMarket location then rate0 * 1.5 else rate0
  let annual_appreciation_rate :=
    if property_type == "land" then rate1 * 1.2
    else if property_type == "commercial" then rate1 * 0.9
    else rate1
  let future_value := purchase_price * (1 + annual_appreciation_rate) ^ timeframe * jitter
  let selling_costs := future_value * 0.075
  let annual_costs := purchase_price * 0.02
  let total_holding_costs := annual_costs * (timeframe : ℝ)
  let net_profit := future_value - purchase_price - selling_costs - total_holding_costs
  let roi_percent := net_profit / initial_investment * 100
  let annualized_roi :=
    ((1 + roi_percent / 100) ^ ((1 : ℝ) / (timeframe : ℝ)) - 1) * 100
  { initial_investment := initial_investment
    projected_future_value := future_value
    total_holding_costs := total_holding_costs
    selling_costs := selling_costs
    net_profit := net_profit
    roi_percent := roi_percent
    annualized_roi_percent := annualized_roi }

/-! ## Route-level validation (`routes/investment_timing.py` `/roi` and
`routes/roi_calculator.py` `/calculate`).

JSON request fields are modelled as `Option` values (`none` = absent);
numeric JSON fields are decimal numbers, hence exact rationals.  Python
truthiness (`if not x`) treats absent fields, empty strings and zero as
falsy. -/

/-- Truthiness of an optional string field. -/
def truthyS : Option String → Bool
  | none => false
  | some s => s != ""

/-- Truthiness of an optional numeric field. -/
def truthyQ : Option ℚ → Bool
  | none => false
  | some q => q != 0

/-- Truthiness of an optional integer field. -/
def truthyZ : Option ℤ → Bool
  | none => false
  | some n => n != 0

/-- Request body of both ROI endpoints. -/
structure RoiRequest where
  location : Option String
  property_type : Option String
  purchase_price : Option ℚ
  investment_goal : Option String
  timeframe : Option ℤ
  additional_investment : Option ℚ
  expected_rent : Option ℚ
  expected_expenses : Option ℚ

/-- Embedding of the `/api/roi-calculator/calculate` handler
(`roi_calculator.py`, `calculate_roi`): the `if not all([...])` guard,
then delegation to `calculate_investment_roi` with the optional fields
defaulted to 0. -/
def roi_calculator_calculate (req : RoiRequest) : Except String InvestmentRoiResult :=
  if truthyS req.location && truthyS req.property_type
      && truthyQ req.purchase_price && truthyS req.investment_goal
      && truthyZ req.timeframe then
    .ok (calculate_investment_roi (req.location.getD "") (req.property_type.getD "")
      (req.purchase_price.getD 0) (req.investment_goal.getD "")
      (req.timeframe.getD 0) (req.additional_investment.getD 0)
      (req.expected_rent.getD 0) (req.expected_expenses.getD 0))
  else
    .error "Missing required fields"

/-- Tagged union of the three payloads of the `/api/investment-timing/roi`
endpoint. -/
inductive TimingRoiData where
  | flip : FlipRoiResult → TimingRoiData
  | rent : RentalRoiResult → TimingRoiData
  | hold : HoldRoiResult → TimingRoiData

/-- Embedding of the `/api/investment-timing/roi` handler
(`investment_timing.py`, `calculate_roi`): the falsy-field guard, then
dispatch on the investment goal (any goal other than `flip`/`rent` is
`hold`), with the extra `expected_rent` guard on the rental path.
`jitter` is the future-value randomness of the selected model. -/
noncomputable def investment_timing_calculate_roi (req : RoiRequest)
    (jitter : ℝ) : Except String TimingRoiData :=
  if truthyS req.location && truthyS req.property_type
      && truthyQ req.purchase_price && truthyS req.investment_goal
      && truthyZ req.timeframe then
    let location := req.location.getD ""
    let property_type := req.property_type.getD ""
    let purchase_price : ℝ := ((req.purchase_price.getD 0 : ℚ) : ℝ)
    let additional_investment : ℝ := ((req.additional_investment.getD 0 : ℚ) : ℝ)
    let timeframe := req.timeframe.getD 0
    if req.investment_goal.getD "" == "flip" then
      .ok (.flip (calculate_flip_roi location property_type purchase_price
        additional_investment timeframe jitter))
    else if req.investment_goal.getD "" == "rent" then
      if truthyQ req.expected_rent then
        .ok (.rent (calculate_rental_roi location property_type purchase_price
          additional_investment ((req.expected_rent.getD 0 : ℚ) : ℝ)
          ((req.expected_expenses.getD 0 : ℚ) : ℝ) timeframe jitter))
      else
        .error "Missing required parameter for rental properties: expected_rent"
    else
      .ok (.hold (calculate_hold_roi location property_type purchase_price
        additional_investment timeframe jitter))
  else
    .error "Missing required parameters: location, property_type, purchase_price, investment_goal, and timeframe are required"

/-! ## Helper lemmas -/

theorem sumIdx_eq (n : ℕ) : sumIdx n = ((n : ℚ) ^ 2 - n) / 2 := by
  induction n with
  | zero => simp [sumIdx]
  | succ m ih =>
    have : sumIdx (m + 1) = sumIdx m + m := by
      simp [sumIdx, List.range_succ]
    rw [this, ih]
    push_cast
    ring

theorem sumIdxSq_eq (n : ℕ) :
    sumIdxSq n = (2 * (n : ℚ) ^ 3 - 3 * (n : ℚ) ^ 2 + n) / 6 := by
  induction n with
  | zero => simp [sumIdxSq]
  | succ m ih =>
    have : sumIdxSq (m + 1) = sumIdxSq m + (m : ℚ) ^ 2 := by
      simp [sumIdxSq, List.range_succ]
    rw [this, ih]
    push_cast
    ring

theorem olsDenom_eq (n : ℕ) : olsDenom n = ((n : ℚ) ^ 4 - (n : ℚ) ^ 2) / 12 := by
  rw [olsDenom, sumIdx_eq, sumIdxSq_eq]
  ring

theorem round2_of_mul_100_int (q : ℚ) (n : ℤ) (h : q * 100 = n) : round2 q = q := by
  rw [round2, h, round_intCast, ← h]
  ring

theorem abs_round1_sub_le (q : ℚ) : |round1 q - q| ≤ 1 / 20 := by
  have h : |((round (q * 10) : ℤ) : ℚ) - q * 10| ≤ 1 / 2 := by
    rw [abs_sub_comm]
    exact abs_sub_round (q * 10)
  rw [round1]
  have heq : ((round (q * 10) : ℤ) : ℚ) / 10 - q = (((round (q * 10) : ℤ) : ℚ) - q * 10) / 10 := by
    ring
  rw [heq, abs_div, abs_of_pos (show (0 : ℚ) < 10 by norm_num)]
  linarith

/-! ## Claim theorems -/

/-- C1: `analyze_trend` returns `"neutral"` for every series with fewer
than two points; for every series with at least two points it returns the
`±0.1`-banded classification of the ordinary-least-squares slope fitted to
the last `min(6, length)` points against index positions `0 … n-1`
(`classifySlope` is the banding written from the spec).  The second
conjunct shows the least-squares fit is never degenerate for `n ≥ 2`
(`olsDenom > 0`), so no internal numerical failure can occur and the
`except → "neutral"` fallback of the source is unreachable. -/
theorem analyze_trend_matches_spec :
    (∀ series : List ℚ,
      analyze_trend series =
        if series.length < 2 then "neutral"
        else classifySlope (olsSlope (lastN (min 6 series.length) series)))
    ∧ (∀ n : ℕ, 0 < olsDenom (n + 2)) := by
  constructor
  · intro series
    by_cases h : series.length < 2 <;>
      simp [analyze_trend, classifySlope, h]
  · intro n
    rw [olsDenom_eq]
    push_cast
    have hx : (2 : ℚ) ≤ (n : ℚ) + 2 := by
      have := Nat.cast_nonneg (α := ℚ) n
      linarith
    have h1 : (4 : ℚ) ≤ ((n : ℚ) + 2) ^ 2 := by nlinarith
    apply div_pos _ (by norm_num)
    nlinarith

/-- C2: the market direction label is a pure function of the integer
market score with bands `≥3 → strong growth`, `≥1 → moderate growth`,
`≤−3 → sharp decline`, `≤−1 → moderate decline`, else `neutral` (each band
stated with the priority of the source's `elif` chain); the reported
confidence equals `min(0.6 + 0.05·|score|, 0.95)` (the serialization
`round(·, 2)` is the identity on these values); and the concrete scenario
with contributions `+2` (interest decreasing), `+1` (inflation stable,
mean 2.0) and `+2` (GDP increasing) yields score 5, label
`"strong growth"` and confidence `0.85`. -/
theorem forecast_market_direction_spec :
    (∀ score : ℤ,
      (3 ≤ score → marketDirection score = "strong growth")
      ∧ (1 ≤ score → score < 3 → marketDirection score = "moderate growth")
      ∧ (score ≤ -3 → marketDirection score = "sharp decline")
      ∧ (-3 < score → score ≤ -1 → marketDirection score = "moderate decline")
      ∧ (-1 < score → score < 1 → marketDirection score = "neutral"))
    ∧ (∀ score : ℤ,
      confidenceReported score = min (0.6 + ((|score| : ℤ) : ℚ) * 0.05) 0.95)
    ∧ interestContribution "decreasing" = 2
    ∧ inflationContribution "stable" 2 = 1
    ∧ gdpContribution "increasing" = 2
    ∧ marketScore "decreasing" "stable" 2 "increasing" = 5
    ∧ marketDirection 5 = "strong growth"
    ∧ confidenceReported 5 = 0.85 := by
  have hconf : ∀ score : ℤ,
      confidenceReported score = min (0.6 + ((|score| : ℤ) : ℚ) * 0.05) 0.95 := by
    intro score
    rw [confidenceReported, confidenceValue]
    rcases le_total (0.6 + ((|score| : ℤ) : ℚ) * 0.05) 0.95 with h | h
    · rw [min_eq_left h]
      exact round2_of_mul_100_int _ (60 + 5 * |score|) (by push_cast; ring)
    · rw [min_eq_right h]
      exact round2_of_mul_100_int _ 95 (by norm_num)
  refine ⟨?_, hconf, ?_, ?_, ?_, ?_, ?_, ?_⟩
  · intro score
    refine ⟨?_, ?_, ?_, ?_, ?_⟩
    · intro h
      simp only [marketDirection]
      rw [if_pos h]
    · intro h1 h2
      simp only [marketDirection]
      rw [if_neg (by omega), if_pos h1]
    · intro h
      simp only [marketDirection]
      rw [if_neg (by omega), if_neg (by omega), if_pos h]
    · intro h1 h2
      simp only [marketDirection]
      rw [if_neg (by omega), if_neg (by omega), if_neg (by omega), if_pos h2]
    · intro h1 h2
      simp only [marketDirection]
      rw [if_neg (by omega), if_neg (by omega), if_neg (by omega), if_neg (by omega)]
  · norm_num [interestContribution]
  · norm_num [inflationContribution]
  · norm_num [gdpContribution]
  · norm_num [marketScore, interestContribution, inflationContribution, gdpContribution]
  · norm_num [marketDirection]
  · rw [hconf 5]
    norm_num

/-- Witness for C2: the banding applied at concrete scores in every band. -/
theorem forecast_market_direction_spec_witness :
    marketDirection 4 = "strong growth"
    ∧ marketDirection 2 = "moderate growth"
    ∧ marketDirection (-4) = "sharp decline"
    ∧ marketDirection (-2) = "moderate decline"
    ∧ marketDirection 0 = "neutral" :=
  ⟨(forecast_market_direction_spec.1 4).1 (by norm_num),
   (forecast_market_direction_spec.1 2).2.1 (by norm_num) (by norm_num),
   (forecast_market_direction_spec.1 (-4)).2.2.1 (by norm_num),
   (forecast_market_direction_spec.1 (-2)).2.2.2.1 (by norm_num) (by norm_num),
   (forecast_market_direction_spec.1 0).2.2.2.2 (by norm_num) (by norm_num)⟩

/-- C3: every `LocationScore` built by the scoring endpoints satisfies the
documented invariant: its stored `total_score` equals the weighted sum
`0.20·schools + 0.15·hospitals + 0.20·transport + 0.20·crime +
0.10·green + 0.15·development` of its stored sub-scores up to the rounding
tolerance introduced by the `round(·, 1)` serialization (at most `0.1`:
`0.05` from rounding the total plus `Σ wᵢ·0.05 = 0.05` from rounding the
sub-scores). -/
theorem locationscore_total_matches_weighted_sum
    (loc : String) (s h t c g d : ℚ) :
    |(mkLocationScore loc s h t c g d).total_score
      - total_score_formula
          (mkLocationScore loc s h t c g d).schools_score
          (mkLocationScore loc s h t c g d).hospitals_score
          (mkLocationScore loc s h t c g d).transport_score
          (mkLocationScore loc s h t c g d).crime_score
          (mkLocationScore loc s h t c g d).green_zones_score
          (mkLocationScore loc s h t c g d).development_score| ≤ 1 / 10 := by
  have hT := abs_le.mp (abs_round1_sub_le (total_score_formula s h t c g d))
  have hs := abs_le.mp (abs_round1_sub_le s)
  have hh := abs_le.mp (abs_round1_sub_le h)
  have ht := abs_le.mp (abs_round1_sub_le t)
  have hc := abs_le.mp (abs_round1_sub_le c)
  have hg := abs_le.mp (abs_round1_sub_le g)
  have hd := abs_le.mp (abs_round1_sub_le d)
  simp only [mkLocationScore]
  rw [abs_le]
  constructor <;>
  · simp only [total_score_formula] at hT ⊢
    linarith [hT.1, hT.2, hs.1, hs.2, hh.1, hh.2, ht.1, ht.2,
      hc.1, hc.2, hg.1, hg.2, hd.1, hd.2]

/-- C4: each per-category location score lies in `[0, 100]` for any list
of places with non-negative distances, an empty list of places yields
exactly `0`, the development score lies in `[0, 100]` for any
non-negative walkability value, and the weighted composite of six
sub-scores each in `[0, 100]` again lies in `[0, 100]`. -/
theorem location_scores_in_range :
    (∀ (distances : List ℚ) (category : String), (∀ dd ∈ distances, 0 ≤ dd) →
      0 ≤ calculate_category_score distances category
        ∧ calculate_category_score distances category ≤ 100)
    ∧ (∀ category : String, calculate_category_score [] category = 0)
    ∧ (∀ (parks greens : List ℚ), (∀ dd ∈ parks, 0 ≤ dd) → (∀ dd ∈ greens, 0 ≤ dd) →
      0 ≤ calculate_green_score parks greens
        ∧ calculate_green_score parks greens ≤ 100)
    ∧ calculate_green_score [] [] = 0
    ∧ (∀ (walkability : ℚ) (amenities : ℕ), 0 ≤ walkability →
      0 ≤ calculate_development_score walkability amenities
        ∧ calculate_development_score walkability amenities ≤ 100)
    ∧ (∀ s h t c g d : ℚ, 0 ≤ s → s ≤ 100 → 0 ≤ h → h ≤ 100 → 0 ≤ t → t ≤ 100 →
      0 ≤ c → c ≤ 100 → 0 ≤ g → g ≤ 100 → 0 ≤ d → d ≤ 100 →
      0 ≤ total_score_formula s h t c g d ∧ total_score_formula s h t c g d ≤ 100) := by
  refine ⟨?_, ?_, ?_, ?_, ?_, ?_⟩
  · intro distances category _
    simp only [calculate_category_score]
    by_cases he : distances.isEmpty
    · rw [if_pos he]
      norm_num
    · rw [if_neg he]
      constructor
      · apply le_min _ (by norm_num)
        apply mul_nonneg
        · split_ifs <;> exact le_min (by positivity) (by norm_num)
        · have h0 : (0 : ℚ) ≤ max 0 (1 - distances.sum / (distances.length : ℚ) / 2000) :=
            le_max_left _ _
          linarith
      · exact min_le_right _ _
  · intro category
    simp [calculate_category_score]
  · intro parks greens _ _
    simp only [calculate_green_score]
    constructor
    · apply le_min _ (by norm_num)
      by_cases he : (parks ++ greens).isEmpty
      · rw [if_pos he]
      · rw [if_neg he]
        apply mul_nonneg
        · exact le_min (by positivity) (by norm_num)
        · have h0 : (0 : ℚ) ≤
              max 0 (1 - (parks ++ greens).sum / ((parks ++ greens).length : ℚ) / 2000) :=
            le_max_left _ _
          linarith
    · exact min_le_right _ _
  · simp [calculate_green_score]
  · intro walkability amenities hw
    simp only [calculate_development_score]
    constructor
    · apply le_min _ (by norm_num)
      have hb : (0 : ℚ) ≤ min walkability 90 := le_min hw (by norm_num)
      have ha : (0 : ℚ) ≤ min ((amenities : ℚ) / 20) 1 := le_min (by positivity) (by norm_num)
      nlinarith
    · exact min_le_right _ _
  · intro s h t c g d hs0 hs1 hh0 hh1 ht0 ht1 hc0 hc1 hg0 hg1 hd0 hd1
    simp only [total_score_formula]
    constructor <;> linarith

/-- Witness for C4: the range bounds instantiated at concrete inputs. -/
theorem location_scores_in_range_witness :
    (0 ≤ calculate_category_score [500, 2500] "school"
      ∧ calculate_category_score [500, 2500] "school" ≤ 100)
    ∧ (0 ≤ calculate_green_score [800] [1200]
      ∧ calculate_green_score [800] [1200] ≤ 100)
    ∧ (0 ≤ calculate_development_score 80 10
      ∧ calculate_development_score 80 10 ≤ 100)
    ∧ (0 ≤ total_score_formula 60 70 80 75 50 65
      ∧ total_score_formula 60 70 80 75 50 65 ≤ 100) :=
  ⟨location_scores_in_range.1 [500, 2500] "school"
      (by intro dd hdd; fin_cases hdd <;> norm_num),
   location_scores_in_range.2.2.1 [800] [1200]
      (by intro dd hdd; fin_cases hdd <;> norm_num)
      (by intro dd hdd; fin_cases hdd <;> norm_num),
   location_scores_in_range.2.2.2.2.1 80 10 (by norm_num),
   location_scores_in_range.2.2.2.2.2 60 70 80 75 50 65
      (by norm_num) (by norm_num) (by norm_num) (by norm_num) (by norm_num)
      (by norm_num) (by norm_num) (by norm_num) (by norm_num) (by norm_num)
      (by norm_num) (by norm_num)⟩

/-- C5: for the hold strategy, the annualized ROI returned by
`calculate_hold_roi` satisfies
`annualizedROI = ((1 + roi/100)^(1/timeframe) - 1) * 100` where `roi` is
the holding-period ROI computed by the same call, for any timeframe `≥ 1`
and any market jitter. -/
theorem hold_roi_annualization_identity (location property_type : String)
    (purchase_price renovation_cost : ℝ) (timeframe : ℤ) (jitter : ℝ)
    (h : 1 ≤ timeframe) :
    (calculate_hold_roi location property_type purchase_price renovation_cost
        timeframe jitter).annualized_roi_percent
      = ((1 + (calculate_hold_roi location property_type purchase_price renovation_cost
            timeframe jitter).roi_percent / 100) ^ ((1 : ℝ) / (timeframe : ℝ)) - 1) * 100 :=
  rfl

/-- Witness for C5: the identity at a concrete five-year hold. -/
theorem hold_roi_annualization_identity_witness :
    (calculate_hold_roi "Chicago, IL" "residential" 250000 0 5 1).annualized_roi_percent
      = ((1 + (calculate_hold_roi "Chicago, IL" "residential" 250000 0 5
            1).roi_percent / 100) ^ ((1 : ℝ) / ((5 : ℤ) : ℝ)) - 1) * 100 :=
  hold_roi_annualization_identity "Chicago, IL" "residential" 250000 0 5 1 (by norm_num)

/-- C6: in the flip branch of `calculate_investment_roi`, the breakeven
figure is exactly `0` whenever the computed net profit (`total_return`) is
positive, and exactly `2 · timeframe · 12` months whenever the profit is
`≤ 0`.  The branch contains no random jitter, so the figure is a
deterministic function of the profit's sign. -/
theorem flip_breakeven_spec (location property_type : String)
    (purchase_price additional_investment : ℚ) (timeframe : ℤ) :
    (0 < (flip_strategy_roi location property_type purchase_price
        additional_investment timeframe).total_return →
      (flip_strategy_roi location property_type purchase_price
        additional_investment timeframe).breakeven_months = 0)
    ∧ ((flip_strategy_roi location property_type purchase_price
        additional_investment timeframe).total_return ≤ 0 →
      (flip_strategy_roi location property_type purchase_price
        additional_investment timeframe).breakeven_months
          = 2 * (timeframe : ℚ) * 12) := by
  constructor <;> intro h <;> simp only [flip_strategy_roi] at h ⊢
  · rw [if_neg (not_le.mpr h)]
  · rw [if_pos h]
    push_cast
    ring

/-- The default growth rate applies to the empty location string. -/
theorem estimate_growth_rate_default :
    estimate_growth_rate "" "residential" = 0.03 :=
  rfl

/-- Witness for C6: a profitable five-year flip has breakeven 0; an
unprofitable one-year flip has breakeven 24 months. -/
theorem flip_breakeven_spec_witness :
    (flip_strategy_roi "" "residential" 100000 0 5).breakeven_months = 0
    ∧ (flip_strategy_roi "" "residential" 100000 0 1).breakeven_months
        = 2 * ((1 : ℤ) : ℚ) * 12 :=
  ⟨(flip_breakeven_spec "" "residential" 100000 0 5).1 (by
      norm_num [flip_strategy_roi, estimate_growth_rate_default]),
   (flip_breakeven_spec "" "residential" 100000 0 1).2 (by
      norm_num [flip_strategy_roi, estimate_growth_rate_default])⟩

/-- C7 counterexample: `estimate_base_price("San Francisco, CA",
"residential")` does not return 750 — the San Francisco residential entry
of the table is 1050 (750 is New York's). -/
theorem estimate_base_price_sf_not_750 :
    estimate_base_price "San Francisco, CA" "residential" ≠ 750 := by
  decide

/-- C7 (amended): `estimate_base_price("Unknown City, ZZ", "residential")`
returns the default 300 rather than an error, and
`estimate_base_price("San Francisco, CA", "residential")` returns 1050. -/
theorem estimate_base_price_examples :
    estimate_base_price "Unknown City, ZZ" "residential" = 300
    ∧ estimate_base_price "San Francisco, CA" "residential" = 1050 :=
  ⟨by decide, by decide⟩

/-- C8: each monthly construction window scores
`finalScore = favorableDays · tempFactor · precipFactor` with the
temperature factor banded at 90°/40°, the precipitation factor banded at
15/10 days, the rating banded at 22/18/14 on the unrounded score; and the
month `(favorableDays 25, avgTemp 75, precipitationDays 8)` scores 25 and
is rated `"Excellent"`. -/
theorem construction_window_scoring_spec :
    (∀ t : ℚ, 90 < t → tempFactor t = 0.8)
    ∧ (∀ t : ℚ, t < 40 → tempFactor t = 0.7)
    ∧ (∀ t : ℚ, 40 ≤ t → t ≤ 90 → tempFactor t = 1)
    ∧ (∀ d : ℕ, 15 < d → precipFactor d = 0.7)
    ∧ (∀ d : ℕ, 10 < d → d ≤ 15 → precipFactor d = 0.85)
    ∧ (∀ d : ℕ, d ≤ 10 → precipFactor d = 1)
    ∧ (∀ (fd : ℕ) (t : ℚ) (pd : ℕ),
        windowFinalScore fd t pd = (fd : ℚ) * tempFactor t * precipFactor pd)
    ∧ (∀ s : ℚ, 22 < s → windowRating s = "Excellent")
    ∧ (∀ s : ℚ, 18 < s → s ≤ 22 → windowRating s = "Good")
    ∧ (∀ s : ℚ, 14 < s → s ≤ 18 → windowRating s = "Average")
    ∧ (∀ s : ℚ, s ≤ 14 → windowRating s = "Poor")
    ∧ scoreConstructionMonth 25 75 8 = (25, "Excellent") := by
  refine ⟨?_, ?_, ?_, ?_, ?_, ?_, ?_, ?_, ?_, ?_, ?_, ?_⟩
  · intro t h
    simp only [tempFactor]
    rw [if_pos h]
  · intro t h
    simp only [tempFactor]
    rw [if_neg (by linarith), if_pos h]
  · intro t h1 h2
    simp only [tempFactor]
    rw [if_neg (by linarith), if_neg (by linarith)]
  · intro d h
    simp only [precipFactor]
    rw [if_pos h]
  · intro d h1 h2
    simp only [precipFactor]
    rw [if_neg (by omega), if_pos h1]
  · intro d h
    simp only [precipFactor]
    rw [if_neg (by omega), if_neg (by omega)]
  · intro fd t pd
    rfl
  · intro s h
    simp only [windowRating]
    rw [if_pos h]
  · intro s h1 h2
    simp only [windowRating]
    rw [if_neg (by linarith), if_pos h1]
  · intro s h1 h2
    simp only [windowRating]
    rw [if_neg (by linarith), if_neg (by linarith), if_pos h1]
  · intro s h
    simp only [windowRating]
    rw [if_neg (by linarith), if_neg (by linarith), if_neg (by linarith)]
  · simp only [scoreConstructionMonth, windowFinalScore, tempFactor, precipFactor,
      windowRating, round1, Prod.mk.injEq]
    norm_num [round_eq]

/-- Witness for C8: the factor and rating bands at concrete inputs. -/
theorem construction_window_scoring_spec_witness :
    tempFactor 95 = 0.8 ∧ tempFactor 30 = 0.7 ∧ tempFactor 75 = 1
    ∧ precipFactor 20 = 0.7 ∧ precipFactor 12 = 0.85 ∧ precipFactor 8 = 1
    ∧ windowRating 25 = "Excellent" ∧ windowRating 20 = "Good"
    ∧ windowRating 16 = "Average" ∧ windowRating 10 = "Poor" :=
  ⟨construction_window_scoring_spec.1 95 (by norm_num),
   construction_window_scoring_spec.2.1 30 (by norm_num),
   construction_window_scoring_spec.2.2.1 75 (by norm_num) (by norm_num),
   construction_window_scoring_spec.2.2.2.1 20 (by norm_num),
   construction_window_scoring_spec.2.2.2.2.1 12 (by norm_num) (by norm_num),
   construction_window_scoring_spec.2.2.2.2.2.1 8 (by norm_num),
   construction_window_scoring_spec.2.2.2.2.2.2.2.1 25 (by norm_num),
   construction_window_scoring_spec.2.2.2.2.2.2.2.2.1 20 (by norm_num) (by norm_num),
   construction_window_scoring_spec.2.2.2.2.2.2.2.2.2.1 16 (by norm_num) (by norm_num),
   construction_window_scoring_spec.2.2.2.2.2.2.2.2.2.2.1 10 (by norm_num)⟩

/-- C9: a request with `timeframe = 0` is rejected by the falsy-field
validation of both ROI endpoints (an error payload is returned), so the
computation — including every annualization division — is never reached
regardless of the other fields. -/
theorem timeframe_zero_rejected (req1 req2 : RoiRequest) (jitter : ℝ)
    (h1 : req1.timeframe = some 0) (h2 : req2.timeframe = some 0) :
    investment_timing_calculate_roi req1 jitter
      = .error "Missing required parameters: location, property_type, purchase_price, investment_goal, and timeframe are required"
    ∧ roi_calculator_calculate req2 = .error "Missing required fields" := by
  constructor
  · simp [investment_timing_calculate_roi, h1, truthyZ]
  · simp [roi_calculator_calculate, h2, truthyZ]

/-- Witness for C9: a fully-populated flip request with `timeframe = 0` is
rejected by both endpoints. -/
theorem timeframe_zero_rejected_witness :
    investment_timing_calculate_roi
        ⟨some "Austin, TX", some "residential", some 500000, some "flip",
          some 0, some 50000, none, none⟩ 1
      = .error "Missing required parameters: location, property_type, purchase_price, investment_goal, and timeframe are required"
    ∧ roi_calculator_calculate
        ⟨some "Austin, TX", some "residential", some 500000, some "flip",
          some 0, some 50000, none, none⟩
      = .error "Missing required fields" :=
  timeframe_zero_rejected
    ⟨some "Austin, TX", some "residential", some 500000, some "flip",
      some 0, some 50000, none, none⟩
    ⟨some "Austin, TX", some "residential", some 500000, some "flip",
      some 0, some 50000, none, none⟩ 1 rfl rfl

/-- C10: for every timeframe `≥ 1`, `calculate_flip_roi` caps the holding
period at exactly 12 months, its annualization exponent
`12 / holding_period_months` equals 1, and therefore the annualized ROI it
returns equals the holding-period ROI exactly — both before and after the
`round(·, 2)` serialization. -/
theorem flip_annualized_equals_roi (location property_type : String)
    (purchase_price renovation_cost : ℝ) (timeframe : ℤ) (jitter : ℝ)
    (h : 1 ≤ timeframe) :
    (calculate_flip_roi location property_type purchase_price renovation_cost
        timeframe jitter).holding_period_months = 12
    ∧ (12 : ℝ) / (((calculate_flip_roi location property_type purchase_price
        renovation_cost timeframe jitter).holding_period_months : ℤ) : ℝ) = 1
    ∧ (calculate_flip_roi location property_type purchase_price renovation_cost
        timeframe jitter).annualized_roi_percent
      = (calculate_flip_roi location property_type purchase_price renovation_cost
          timeframe jitter).roi_percent
    ∧ round2R (calculate_flip_roi location property_type purchase_price
        renovation_cost timeframe jitter).annualized_roi_percent
      = round2R (calculate_flip_roi location property_type purchase_price
          renovation_cost timeframe jitter).roi_percent := by
  have hmin : min (timeframe * 12) 12 = (12 : ℤ) := min_eq_right (by linarith)
  have hp : (calculate_flip_roi location property_type purchase_price renovation_cost
      timeframe jitter).holding_period_months = 12 := by
    simp only [calculate_flip_roi]
    exact hmin
  have hexp : (12 : ℝ) / (((calculate_flip_roi location property_type purchase_price
      renovation_cost timeframe jitter).holding_period_months : ℤ) : ℝ) = 1 := by
    rw [hp]
    norm_num
  have hmain : (calculate_flip_roi location property_type purchase_price renovation_cost
      timeframe jitter).annualized_roi_percent
      = (calculate_flip_roi location property_type purchase_price renovation_cost
          timeframe jitter).roi_percent := by
    simp only [calculate_flip_roi, hmin]
    norm_num [Real.rpow_one]
  exact ⟨hp, hexp, hmain, congrArg round2R hmain⟩

/-- Witness for C10: the collapse at a concrete three-year flip. -/
theorem flip_annualized_equals_roi_witness :
    (calculate_flip_roi "Austin, TX" "residential" 300000 20000 3
        1).holding_period_months = 12
    ∧ (12 : ℝ) / (((calculate_flip_roi "Austin, TX" "residential" 300000 20000 3
        1).holding_period_months : ℤ) : ℝ) = 1
    ∧ (calculate_flip_roi "Austin, TX" "residential" 300000 20000 3
        1).annualized_roi_percent
      = (calculate_flip_roi "Austin, TX" "residential" 300000 20000 3
          1).roi_percent
    ∧ round2R (calculate_flip_roi "Austin, TX" "residential" 300000 20000 3
        1).annualized_roi_percent
      = round2R (calculate_flip_roi "Austin, TX" "residential" 300000 20000 3
          1).roi_percent :=
  flip_annualized_equals_roi "Austin, TX" "residential" 300000 20000 3 1 (by norm_num)
